import Mathlib

/-!
Shallow embedding of the pose-fusion core of OculusRoomTiny (ThreeSpace variant),
from src/Win32_OculusRoomTiny.cpp and src/Win32_OculusRoomTiny.h.

Scalar values are modelled as exact rationals (the generic definitions are stated
over an arbitrary field so that magnitude facts can be instantiated at the reals).
Transcendental library routines (asin, atan2, cos, sin, sqrt) are external to the
repository; they are passed to the embedded code as function parameters, exactly
at the call sites where the C++ calls into the math library.
-/

namespace RoomTiny

/-- A 3-component vector, `OVR::Vector3f` with exact scalars. -/
structure V3 (K : Type) where
  x : K
  y : K
  z : K
deriving DecidableEq

/-- Componentwise vector addition (`Vector3f::operator+`). -/
def vadd {K : Type} [Field K] (a b : V3 K) : V3 K :=
  ⟨a.x + b.x, a.y + b.y, a.z + b.z⟩

/-- Componentwise vector subtraction (`Vector3f::operator-`). -/
def vsub {K : Type} [Field K] (a b : V3 K) : V3 K :=
  ⟨a.x - b.x, a.y - b.y, a.z - b.z⟩

/-- Vector negation (`Vector3f::operator- (unary)`). -/
def vneg {K : Type} [Field K] (a : V3 K) : V3 K :=
  ⟨-a.x, -a.y, -a.z⟩

/-- Scalar multiple (`Vector3f::operator*=`). -/
def smulV {K : Type} [Field K] (c : K) (a : V3 K) : V3 K :=
  ⟨c * a.x, c * a.y, c * a.z⟩

/-- Dot product; `dotV v v` is `Vector3f::LengthSq()`. -/
def dotV {K : Type} [Field K] (a b : V3 K) : K :=
  a.x * b.x + a.y * b.y + a.z * b.z

/-- Rotation about the Y (up) axis applied to a vector:
`Matrix4f::RotationY(theta).Transform v`, with `c = cos theta`, `s = sin theta`
supplied by the caller (the trig evaluation lives in the external math library). -/
def rotYv {K : Type} [Field K] (c s : K) (v : V3 K) : V3 K :=
  ⟨c * v.x + s * v.z, v.y, -s * v.x + c * v.z⟩

/-- Rotation about the X (right) axis: `Matrix4f::RotationX(theta).Transform v`. -/
def rotXv {K : Type} [Field K] (c s : K) (v : V3 K) : V3 K :=
  ⟨v.x, c * v.y - s * v.z, s * v.y + c * v.z⟩

/-- Rotation about the Z (forward) axis: `Matrix4f::RotationZ(theta).Transform v`. -/
def rotZv {K : Type} [Field K] (c s : K) (v : V3 K) : V3 K :=
  ⟨c * v.x - s * v.y, s * v.x + c * v.y, v.z⟩

/-- The body-frame rotation `Matrix4f::RotationY(EyeYaw) * Matrix4f::RotationX(EyePitch)
* Matrix4f::RotationZ(EyeRoll)` applied to a vector (source line 647), with the
cosine/sine of yaw, pitch, roll passed in as `(cy, sy)`, `(cx, sx)`, `(cz, sz)`. -/
def rollPitchYawV {K : Type} [Field K] (cy sy cx sx cz sz : K) (v : V3 K) : V3 K :=
  rotYv cy sy (rotXv cx sx (rotZv cz sz v))

/-- `UpVector` from the header. -/
def upVector {K : Type} [Field K] : V3 K := ⟨0, 1, 0⟩

/-- `ForwardVector` from the header. -/
def forwardVector {K : Type} [Field K] : V3 K := ⟨0, 0, -1⟩

/-- `RightVector` from the header. -/
def rightVector {K : Type} [Field K] : V3 K := ⟨1, 0, 0⟩

/-- `YawInitial = 3.141592f` from the header. -/
def yawInitial : ℚ := 3141592 / 1000000

/-- `Sensitivity = 1.0f` from the header. -/
def sensitivity : ℚ := 1

/-- `MoveSpeed = 3.0f` (m/s) from the header. -/
def moveSpeed {K : Type} [Field K] : K := 3

/-- `const float PI_F = 3.14159265358979f` from `OnIdle`, as the exact rational of
its decimal literal. -/
def PI_F : ℚ := 314159265358979 / 100000000000000

/-- `const float maxPitch = ((3.1415f/2)*0.98f)` from `OnMouseMove` and `OnIdle`. -/
def maxPitch : ℚ := 3141500 / 1000000 / 2 * (98 / 100)

/-- The streamed ThreeSpace quaternion `tss_packet.quat`, in `(x, y, z, w)` order. -/
structure Quat where
  x : ℚ
  y : ℚ
  z : ℚ
  w : ℚ
deriving DecidableEq

/-- A yaw/pitch/roll triple; `rotator[0]`, `rotator[1]`, `rotator[2]` in `OnIdle`,
and also the output shape of `Quatf::GetEulerAngles<Axis_Y, Axis_X, Axis_Z>`. -/
structure Euler where
  yaw : ℚ
  pitch : ℚ
  roll : ℚ
deriving DecidableEq

/-- The quaternion-to-Euler decomposition of the ThreeSpace branch of `OnIdle`
(source lines 540-575): `s = 2(w y - x z)`; if `s < 1` and `-1 < s` the
asin/atan2 formulas are used, otherwise the gimbal-lock pole branches.
`asinF` and `atan2F` stand for the C math library's `asin` and `atan2`. -/
def decompose (asinF : ℚ → ℚ) (atan2F : ℚ → ℚ → ℚ) (q : Quat) : Euler :=
  let s : ℚ := 2 * (q.w * q.y - q.x * q.z)
  if s < 1 then
    if -1 < s then
      { yaw := atan2F (2 * (q.x * q.y + q.w * q.z)) (1 - 2 * (q.y * q.y + q.z * q.z))
        pitch := asinF s
        roll := atan2F (2 * (q.y * q.z + q.w * q.x)) (1 - 2 * (q.x * q.x + q.y * q.y)) }
    else
      { yaw := 0
        pitch := -(PI_F / 2)
        roll := -(atan2F (2 * (q.x * q.y - q.w * q.z)) (1 - 2 * (q.x * q.x + q.z * q.z))) }
  else
    { yaw := 0
      pitch := PI_F / 2
      roll := atan2F (2 * (q.x * q.y - q.w * q.z)) (1 - 2 * (q.x * q.x + q.z * q.z)) }

/-- A concrete stand-in for the math library used by closed witness statements. -/
def zeroFun : ℚ → ℚ := fun _ => 0

/-- A concrete stand-in for `atan2` used by closed witness statements. -/
def zeroFun2 : ℚ → ℚ → ℚ := fun _ _ => 0

/-- An `asin` stand-in that agrees with `zeroFun` on the open interval `(-1, 1)`
and is arbitrary (99) outside it. -/
def guardedAsin : ℚ → ℚ := fun t => if -1 < t then (if t < 1 then 0 else 99) else 99

/-- C1: on the open interval the decomposition returns the atan2/asin/atan2 triple;
at the north pole (`s ≥ 1`) it returns yaw 0, pitch `+PI_F/2` and the polar roll;
at the south pole (`s ≤ -1`) it returns yaw 0, pitch `-PI_F/2` and the negated
polar roll. -/
theorem decompose_spec (asinF : ℚ → ℚ) (atan2F : ℚ → ℚ → ℚ) (q : Quat) :
    (q.x * q.x + q.y * q.y + q.z * q.z + q.w * q.w = 1 →
      -1 < 2 * (q.w * q.y - q.x * q.z) → 2 * (q.w * q.y - q.x * q.z) < 1 →
      decompose asinF atan2F q =
        { yaw := atan2F (2 * (q.x * q.y + q.w * q.z)) (1 - 2 * (q.y * q.y + q.z * q.z))
          pitch := asinF (2 * (q.w * q.y - q.x * q.z))
          roll := atan2F (2 * (q.y * q.z + q.w * q.x)) (1 - 2 * (q.x * q.x + q.y * q.y)) }) ∧
    (1 ≤ 2 * (q.w * q.y - q.x * q.z) →
      decompose asinF atan2F q =
        { yaw := 0
          pitch := PI_F / 2
          roll := atan2F (2 * (q.x * q.y - q.w * q.z)) (1 - 2 * (q.x * q.x + q.z * q.z)) }) ∧
    (2 * (q.w * q.y - q.x * q.z) ≤ -1 →
      decompose asinF atan2F q =
        { yaw := 0
          pitch := -(PI_F / 2)
          roll := -(atan2F (2 * (q.x * q.y - q.w * q.z)) (1 - 2 * (q.x * q.x + q.z * q.z))) }) := by
  refine ⟨?_, ?_, ?_⟩
  · intro _ h1 h2
    simp [decompose, h1, h2]
  · intro h
    have h1 : ¬ (2 * (q.w * q.y - q.x * q.z) < 1) := not_lt.mpr h
    simp [decompose, h1]
  · intro h
    have h1 : 2 * (q.w * q.y - q.x * q.z) < 1 := lt_of_le_of_lt h (by norm_num)
    have h2 : ¬ (-1 < 2 * (q.w * q.y - q.x * q.z)) := not_lt.mpr h
    simp [decompose, h1, h2]

/-- Witness for C1: the identity quaternion hits the interior branch, and
`(0, ±1, 0, 1)` hit the two pole branches. -/
theorem decompose_spec_witness :
    decompose zeroFun zeroFun2 ⟨0, 0, 0, 1⟩ =
      { yaw := zeroFun2 (2 * (0 * 0 + 1 * 0)) (1 - 2 * (0 * 0 + 0 * 0))
        pitch := zeroFun (2 * (1 * 0 - 0 * 0))
        roll := zeroFun2 (2 * (0 * 0 + 1 * 0)) (1 - 2 * (0 * 0 + 0 * 0)) } ∧
    decompose zeroFun zeroFun2 ⟨0, 1, 0, 1⟩ =
      { yaw := 0
        pitch := PI_F / 2
        roll := zeroFun2 (2 * (0 * 1 - 1 * 0)) (1 - 2 * (0 * 0 + 0 * 0)) } ∧
    decompose zeroFun zeroFun2 ⟨0, -1, 0, 1⟩ =
      { yaw := 0
        pitch := -(PI_F / 2)
        roll := -(zeroFun2 (2 * (0 * (-1) - 1 * 0)) (1 - 2 * (0 * 0 + 0 * 0))) } :=
  ⟨(decompose_spec zeroFun zeroFun2 ⟨0, 0, 0, 1⟩).1 (by norm_num) (by norm_num) (by norm_num),
   (decompose_spec zeroFun zeroFun2 ⟨0, 1, 0, 1⟩).2.1 (by norm_num),
   (decompose_spec zeroFun zeroFun2 ⟨0, -1, 0, 1⟩).2.2 (by norm_num)⟩

/-- C2: the decomposition result depends on `asin` only through its values on the
open interval `(-1, 1)` (so the guarded branch never invokes `asin` out of
domain), and in both pole branches the returned yaw is 0 — for every input
quaternion, unit-norm or not. -/
theorem decompose_asin_guard (a1 a2 : ℚ → ℚ) (atan2F : ℚ → ℚ → ℚ) (q : Quat)
    (h : ∀ t : ℚ, -1 < t → t < 1 → a1 t = a2 t) :
    decompose a1 atan2F q = decompose a2 atan2F q ∧
    (1 ≤ 2 * (q.w * q.y - q.x * q.z) → (decompose a1 atan2F q).yaw = 0) ∧
    (2 * (q.w * q.y - q.x * q.z) ≤ -1 → (decompose a1 atan2F q).yaw = 0) := by
  refine ⟨?_, ?_, ?_⟩
  · unfold decompose
    by_cases h1 : 2 * (q.w * q.y - q.x * q.z) < 1
    · by_cases h2 : -1 < 2 * (q.w * q.y - q.x * q.z)
      · simp only [h1, h2, if_true, if_pos]
        rw [h _ h2 h1]
      · simp [h1, h2]
    · simp [h1]
  · intro hp
    have h1 : ¬ (2 * (q.w * q.y - q.x * q.z) < 1) := not_lt.mpr hp
    simp [decompose, h1]
  · intro hp
    have h1 : 2 * (q.w * q.y - q.x * q.z) < 1 := lt_of_le_of_lt hp (by norm_num)
    have h2 : ¬ (-1 < 2 * (q.w * q.y - q.x * q.z)) := not_lt.mpr hp
    simp [decompose, h1, h2]

/-- Witness for C2: `zeroFun` and `guardedAsin` agree on `(-1, 1)` (the latter is
arbitrary outside), hence the decomposition cannot tell them apart; the pole yaw
is 0 at a boundary quaternion. -/
theorem decompose_asin_guard_witness :
    decompose zeroFun zeroFun2 ⟨0, 1, 0, 1⟩ = decompose guardedAsin zeroFun2 ⟨0, 1, 0, 1⟩ ∧
    (decompose zeroFun zeroFun2 ⟨0, 1, 0, 1⟩).yaw = 0 :=
  ⟨(decompose_asin_guard zeroFun guardedAsin zeroFun2 ⟨0, 1, 0, 1⟩
      (fun t h1 h2 => by simp [zeroFun, guardedAsin, h1, h2])).1,
   (decompose_asin_guard zeroFun guardedAsin zeroFun2 ⟨0, 1, 0, 1⟩
      (fun t h1 h2 => by simp [zeroFun, guardedAsin, h1, h2])).2.1 (by norm_num)⟩

/-- Sequential pitch clamp as written in `OnMouseMove` (lines 418-421) and in the
gamepad-pitch branch of `OnIdle` (lines 604-607): first clamp above to
`maxPitch`, then clamp below to `-maxPitch`. -/
def clampPitch (p : ℚ) : ℚ :=
  let p1 := if p > maxPitch then maxPitch else p
  if p1 < -maxPitch then -maxPitch else p1

/-- The external math routines the embedded code calls: `asin`, `atan2`, `cos`,
`sin` (inside `Matrix4f::Rotation*`), and `sqrt` (inside `Vector3f::Length`). -/
structure MathFns where
  asinF : ℚ → ℚ
  atan2F : ℚ → ℚ → ℚ
  cosF : ℚ → ℚ
  sinF : ℚ → ℚ
  sqrtF : ℚ → ℚ

/-- The mutable application state read and written by the per-frame pipeline:
`EyePos`, `EyeYaw`, `EyePitch`, `EyeRoll`, `LastSensorYaw`, the global
`tss_packet` buffer, the connection flags `pSensor` / `tss_isStreaming`, the
movement bitmasks, the gamepad vectors and the modifier keys. -/
structure AppState where
  eyePos : V3 ℚ
  eyeYaw : ℚ
  eyePitch : ℚ
  eyeRoll : ℚ
  lastSensorYaw : ℚ
  tssPacket : Quat
  sensorConnected : Bool
  tssStreaming : Bool
  moveForward : ℕ
  moveBack : ℕ
  moveLeft : ℕ
  moveRight : ℕ
  gamepadMove : V3 ℚ
  gamepadRotate : V3 ℚ
  shiftDown : Bool
  controlDown : Bool
deriving DecidableEq

/-- The state constructed by `OculusRoomTinyApp::OculusRoomTinyApp` (lines 56-85):
`EyePos(0, 1.6, -5)`, `EyeYaw = YawInitial`, zero pitch/roll/`LastSensorYaw`,
cleared movement bits and gamepad vectors; the connection flags are determined
by the startup handshakes, so they are parameters here. -/
def initState (sensorConnected tssStreaming : Bool) : AppState :=
  { eyePos := ⟨0, 8 / 5, -5⟩
    eyeYaw := yawInitial
    eyePitch := 0
    eyeRoll := 0
    lastSensorYaw := 0
    tssPacket := ⟨0, 0, 0, 0⟩
    sensorConnected := sensorConnected
    tssStreaming := tssStreaming
    moveForward := 0
    moveBack := 0
    moveLeft := 0
    moveRight := 0
    gamepadMove := ⟨0, 0, 0⟩
    gamepadRotate := ⟨0, 0, 0⟩
    shiftDown := false
    controlDown := false }

/-- The two sensor blocks at the top of `OnIdle` (lines 518-593).
If `pSensor` is attached, `SFusion.GetOrientation()` already yields an Euler
triple via `GetEulerAngles<Axis_Y, Axis_X, Axis_Z>`; that external reading is
`internalSample`. If `tss_isStreaming`, `tss_getLatestStreamData` either
delivers a fresh quaternion (`some q`) or reports an error (`none`), in which
case only a message is logged and the stale `tss_packet` buffer is decomposed
as before. -/
def sensorStep (P : MathFns) (internalSample : Euler) (tssSample : Option Quat)
    (st : AppState) : AppState :=
  let st1 :=
    if st.sensorConnected then
      { st with
        eyePitch := internalSample.pitch
        eyeRoll := internalSample.roll
        eyeYaw := st.eyeYaw + (internalSample.yaw - st.lastSensorYaw)
        lastSensorYaw := internalSample.yaw }
    else st
  if st1.tssStreaming then
    let packet := tssSample.getD st1.tssPacket
    let r := decompose P.asinF P.atan2F packet
    { st1 with
      tssPacket := packet
      eyePitch := r.pitch
      eyeRoll := r.roll
      eyeYaw := st1.eyeYaw + (r.yaw - st1.lastSensorYaw)
      lastSensorYaw := r.yaw }
  else st1

/-- The gamepad rotation block of `OnIdle` (lines 595-608): yaw always receives
`-GamepadRotate.x * dt`; pitch free-runs from `GamepadRotate.y` with the
`maxPitch` clamp only when neither tracker is present. -/
def gamepadRotStep (dt : ℚ) (st : AppState) : AppState :=
  let st1 := { st with eyeYaw := st.eyeYaw - st.gamepadRotate.x * dt }
  if !st1.sensorConnected && !st1.tssStreaming then
    { st1 with eyePitch := clampPitch (st1.eyePitch - st1.gamepadRotate.y * dt) }
  else st1

/-- The local-space movement vector built from the movement bitmasks
(lines 615-626): forward wins over back, right wins over left. -/
def localMoveVector {K : Type} [Field K] (mf mb ml mr : ℕ) : V3 K :=
  let v : V3 K :=
    if mf ≠ 0 then forwardVector else if mb ≠ 0 then vneg forwardVector else ⟨0, 0, 0⟩
  if mr ≠ 0 then vadd v rightVector else if ml ≠ 0 then vsub v rightVector else v

/-- `Vector3f::Normalize()`: divide every component by `Length() = sqrt(LengthSq())`,
with the square root supplied by the external math library. -/
def normalizeV {K : Type} [Field K] (sqrtF : K → K) (v : V3 K) : V3 K :=
  let l := sqrtF (dotV v v)
  ⟨v.x / l, v.y / l, v.z / l⟩

/-- The keyboard displacement of one frame (lines 613-633): normalize the local
movement vector, rotate it by yaw only (`Matrix4f::RotationY(EyeYaw)`, with
`c = cos EyeYaw`, `s = sin EyeYaw`), then scale by
`MoveSpeed * dt * (ShiftDown ? 3 : 1)`. -/
def keyboardDisplacement {K : Type} [Field K] (sqrtF : K → K) (c s : K)
    (mf mb ml mr : ℕ) (dt : K) (shift : Bool) : V3 K :=
  let l : V3 K := localMoveVector mf mb ml mr
  let n := normalizeV sqrtF l
  let o := rotYv c s n
  smulV (moveSpeed * dt * (if shift then 3 else 1)) o

/-- The movement block of `OnIdle` (lines 613-642): keyboard movement when any
movement bit is set, otherwise the squared gamepad stick vector rotated by yaw
and scaled by `MoveSpeed * dt` when it is nonzero. -/
def moveStep (sqrtF cosF sinF : ℚ → ℚ) (dt : ℚ) (st : AppState) : AppState :=
  if st.moveForward ≠ 0 ∨ st.moveBack ≠ 0 ∨ st.moveLeft ≠ 0 ∨ st.moveRight ≠ 0 then
    let d := keyboardDisplacement sqrtF (cosF st.eyeYaw) (sinF st.eyeYaw)
        st.moveForward st.moveBack st.moveLeft st.moveRight dt st.shiftDown
    { st with eyePos := vadd st.eyePos d }
  else if dotV st.gamepadMove st.gamepadMove > 0 then
    let d := smulV (moveSpeed * dt) (rotYv (cosF st.eyeYaw) (sinF st.eyeYaw) st.gamepadMove)
    { st with eyePos := vadd st.eyePos d }
  else st

/-- `headBaseToEyeHeight = 0.15f` (line 654). -/
def headBaseToEyeHeight {K : Type} [Field K] : K := 15 / 100

/-- `headBaseToEyeProtrusion = 0.09f` (line 655). -/
def headBaseToEyeProtrusion {K : Type} [Field K] : K := 9 / 100

/-- `eyeCenterInHeadFrame(0, 0.15, -0.09)` (line 657). -/
def eyeCenterInHeadFrame {K : Type} [Field K] : V3 K :=
  ⟨0, headBaseToEyeHeight, -headBaseToEyeProtrusion⟩

/-- The minimal head model (lines 657-659): add the body-frame-rotated
`eyeCenterInHeadFrame` to `EyePos`, then subtract the constant
`eyeCenterInHeadFrame.y` from the vertical component. -/
def shiftedEyePos {K : Type} [Field K] (pos : V3 K) (cy sy cx sx cz sz : K) : V3 K :=
  let sh := vadd pos (rollPitchYawV cy sy cx sx cz sz eyeCenterInHeadFrame)
  { sh with y := sh.y - (eyeCenterInHeadFrame (K := K)).y }

/-- One `OnIdle` pass through the state-mutating pipeline stages, in source
order: sensor sampling/decomposition, gamepad rotation, motion integration.
(View building and rendering read the resulting state but do not write it.) -/
def onIdle (P : MathFns) (dt : ℚ) (internalSample : Euler) (tssSample : Option Quat)
    (st : AppState) : AppState :=
  moveStep P.sqrtF P.cosF P.sinF dt (gamepadRotStep dt (sensorStep P internalSample tssSample st))

/-- `OnMouseMove` (lines 402-423): yaw always receives the mouse delta; pitch
receives it, with the `maxPitch` clamp, only when `pSensor` is not attached. -/
def onMouseMove (dx dy : ℤ) (st : AppState) : AppState :=
  let st1 := { st with eyeYaw := st.eyeYaw - sensitivity * (dx : ℚ) / 360 }
  if !st1.sensorConnected then
    { st1 with eyePitch := clampPitch (st1.eyePitch - sensitivity * (dy : ℚ) / 360) }
  else st1

/-- `OnGamepad` (lines 394-400): square the stick values preserving sign; the
movement vector has a zero vertical component by construction. -/
def onGamepad (lx ly rx ry : ℚ) (st : AppState) : AppState :=
  { st with
    gamepadMove := ⟨lx * lx * (if lx > 0 then 1 else -1), 0,
                    ly * ly * (if ly > 0 then -1 else 1)⟩
    gamepadRotate := ⟨2 * rx, -(2 * ry), 0⟩ }

/-- The keys of `OnKey` that write the movement bitmasks and modifier flags
(lines 441-446, 498-503). Bit 1 is the WASD set, bit 2 the arrow keys. -/
inductive MoveKey
  | keyW
  | keyS
  | keyA
  | keyD
  | keyUp
  | keyDownArrow
  | keyShift
  | keyControl
deriving DecidableEq

/-- The movement/modifier cases of `OnKey`: set the device bit on key-down,
clear it on key-up (`MoveForward | 1` / `MoveForward & ~1`, byte-width). -/
def onKey (k : MoveKey) (down : Bool) (st : AppState) : AppState :=
  match k with
  | .keyW => { st with moveForward := if down then st.moveForward ||| 1 else st.moveForward &&& 254 }
  | .keyS => { st with moveBack := if down then st.moveBack ||| 1 else st.moveBack &&& 254 }
  | .keyA => { st with moveLeft := if down then st.moveLeft ||| 1 else st.moveLeft &&& 254 }
  | .keyD => { st with moveRight := if down then st.moveRight ||| 1 else st.moveRight &&& 254 }
  | .keyUp => { st with moveForward := if down then st.moveForward ||| 2 else st.moveForward &&& 253 }
  | .keyDownArrow => { st with moveBack := if down then st.moveBack ||| 2 else st.moveBack &&& 253 }
  | .keyShift => { st with shiftDown := down }
  | .keyControl => { st with controlDown := down }

/-- An externally-driven event of the cooperative loop in `Run` (lines 857-895):
a relative mouse move, a gamepad poll, a key transition, or one `OnIdle` frame
(carrying that frame's external sensor readings). -/
inductive Ev
  | mouse (dx dy : ℤ)
  | pad (lx ly rx ry : ℚ)
  | key (k : MoveKey) (down : Bool)
  | frame (dt : ℚ) (internalSample : Euler) (tssSample : Option Quat)

/-- Dispatch one event to its handler. -/
def stepEv (P : MathFns) (st : AppState) (e : Ev) : AppState :=
  match e with
  | .mouse dx dy => onMouseMove dx dy st
  | .pad lx ly rx ry => onGamepad lx ly rx ry st
  | .key k down => onKey k down st
  | .frame dt internalSample tssSample => onIdle P dt internalSample tssSample st

/-- Run a sequence of loop events from a state. -/
def runEvents (P : MathFns) (st : AppState) (evs : List Ev) : AppState :=
  evs.foldl (stepEv P) st

/-- A concrete all-zero math library for closed witness statements. -/
def trivFns : MathFns :=
  { asinF := zeroFun
    atan2F := zeroFun2
    cosF := zeroFun
    sinF := zeroFun
    sqrtF := zeroFun }

/-- A concrete Euler triple for closed witness statements. -/
def euler0 : Euler := ⟨0, 0, 0⟩

theorem moveStep_eyeYaw (f c s : ℚ → ℚ) (dt : ℚ) (st : AppState) :
    (moveStep f c s dt st).eyeYaw = st.eyeYaw := by
  unfold moveStep
  split
  · rfl
  · split <;> rfl

theorem moveStep_eyePitch (f c s : ℚ → ℚ) (dt : ℚ) (st : AppState) :
    (moveStep f c s dt st).eyePitch = st.eyePitch := by
  unfold moveStep
  split
  · rfl
  · split <;> rfl

theorem moveStep_eyeRoll (f c s : ℚ → ℚ) (dt : ℚ) (st : AppState) :
    (moveStep f c s dt st).eyeRoll = st.eyeRoll := by
  unfold moveStep
  split
  · rfl
  · split <;> rfl

theorem moveStep_lastSensorYaw (f c s : ℚ → ℚ) (dt : ℚ) (st : AppState) :
    (moveStep f c s dt st).lastSensorYaw = st.lastSensorYaw := by
  unfold moveStep
  split
  · rfl
  · split <;> rfl

theorem moveStep_sensorConnected (f c s : ℚ → ℚ) (dt : ℚ) (st : AppState) :
    (moveStep f c s dt st).sensorConnected = st.sensorConnected := by
  unfold moveStep
  split
  · rfl
  · split <;> rfl

theorem moveStep_tssStreaming (f c s : ℚ → ℚ) (dt : ℚ) (st : AppState) :
    (moveStep f c s dt st).tssStreaming = st.tssStreaming := by
  unfold moveStep
  split
  · rfl
  · split <;> rfl

theorem moveStep_gamepadRotate (f c s : ℚ → ℚ) (dt : ℚ) (st : AppState) :
    (moveStep f c s dt st).gamepadRotate = st.gamepadRotate := by
  unfold moveStep
  split
  · rfl
  · split <;> rfl

theorem moveStep_gamepadMove (f c s : ℚ → ℚ) (dt : ℚ) (st : AppState) :
    (moveStep f c s dt st).gamepadMove = st.gamepadMove := by
  unfold moveStep
  split
  · rfl
  · split <;> rfl

theorem gamepadRotStep_eyePos (dt : ℚ) (st : AppState) :
    (gamepadRotStep dt st).eyePos = st.eyePos := by
  unfold gamepadRotStep
  dsimp only
  split <;> rfl

theorem gamepadRotStep_eyeYaw (dt : ℚ) (st : AppState) :
    (gamepadRotStep dt st).eyeYaw = st.eyeYaw - st.gamepadRotate.x * dt := by
  unfold gamepadRotStep
  dsimp only
  split <;> rfl

theorem gamepadRotStep_eyeRoll (dt : ℚ) (st : AppState) :
    (gamepadRotStep dt st).eyeRoll = st.eyeRoll := by
  unfold gamepadRotStep
  dsimp only
  split <;> rfl

theorem gamepadRotStep_lastSensorYaw (dt : ℚ) (st : AppState) :
    (gamepadRotStep dt st).lastSensorYaw = st.lastSensorYaw := by
  unfold gamepadRotStep
  dsimp only
  split <;> rfl

theorem gamepadRotStep_sensorConnected (dt : ℚ) (st : AppState) :
    (gamepadRotStep dt st).sensorConnected = st.sensorConnected := by
  unfold gamepadRotStep
  dsimp only
  split <;> rfl

theorem gamepadRotStep_tssStreaming (dt : ℚ) (st : AppState) :
    (gamepadRotStep dt st).tssStreaming = st.tssStreaming := by
  unfold gamepadRotStep
  dsimp only
  split <;> rfl

theorem gamepadRotStep_gamepadRotate (dt : ℚ) (st : AppState) :
    (gamepadRotStep dt st).gamepadRotate = st.gamepadRotate := by
  unfold gamepadRotStep
  dsimp only
  split <;> rfl

theorem gamepadRotStep_gamepadMove (dt : ℚ) (st : AppState) :
    (gamepadRotStep dt st).gamepadMove = st.gamepadMove := by
  unfold gamepadRotStep
  dsimp only
  split <;> rfl

theorem gamepadRotStep_eyePitch_tracked (dt : ℚ) (st : AppState)
    (h : st.sensorConnected = true ∨ st.tssStreaming = true) :
    (gamepadRotStep dt st).eyePitch = st.eyePitch := by
  unfold gamepadRotStep
  dsimp only
  rcases h with h | h <;> simp [h]

theorem gamepadRotStep_eyePitch_manual (dt : ℚ) (st : AppState)
    (hsc : st.sensorConnected = false) (hts : st.tssStreaming = false) :
    (gamepadRotStep dt st).eyePitch = clampPitch (st.eyePitch - st.gamepadRotate.y * dt) := by
  unfold gamepadRotStep
  dsimp only
  simp [hsc, hts]

theorem sensorStep_eyePos (P : MathFns) (iS : Euler) (tssS : Option Quat) (st : AppState) :
    (sensorStep P iS tssS st).eyePos = st.eyePos := by
  unfold sensorStep
  split <;> (dsimp only; split <;> rfl)

theorem sensorStep_gamepadMove (P : MathFns) (iS : Euler) (tssS : Option Quat) (st : AppState) :
    (sensorStep P iS tssS st).gamepadMove = st.gamepadMove := by
  unfold sensorStep
  split <;> (dsimp only; split <;> rfl)

theorem sensorStep_gamepadRotate (P : MathFns) (iS : Euler) (tssS : Option Quat) (st : AppState) :
    (sensorStep P iS tssS st).gamepadRotate = st.gamepadRotate := by
  unfold sensorStep
  split <;> (dsimp only; split <;> rfl)

theorem sensorStep_sensorConnected (P : MathFns) (iS : Euler) (tssS : Option Quat) (st : AppState) :
    (sensorStep P iS tssS st).sensorConnected = st.sensorConnected := by
  unfold sensorStep
  split <;> (dsimp only; split <;> rfl)

theorem sensorStep_tssStreaming (P : MathFns) (iS : Euler) (tssS : Option Quat) (st : AppState) :
    (sensorStep P iS tssS st).tssStreaming = st.tssStreaming := by
  unfold sensorStep
  split <;> (dsimp only; split <;> rfl)

theorem sensorStep_internal_only (P : MathFns) (iS : Euler) (tssS : Option Quat) (st : AppState)
    (hsc : st.sensorConnected = true) (hts : st.tssStreaming = false) :
    sensorStep P iS tssS st =
      { st with
        eyePitch := iS.pitch
        eyeRoll := iS.roll
        eyeYaw := st.eyeYaw + (iS.yaw - st.lastSensorYaw)
        lastSensorYaw := iS.yaw } := by
  unfold sensorStep
  simp [hsc, hts]

theorem onIdle_internal_fields (P : MathFns) (dt : ℚ) (iS : Euler) (tssS : Option Quat)
    (st : AppState) (hsc : st.sensorConnected = true) (hts : st.tssStreaming = false) :
    (onIdle P dt iS tssS st).eyeYaw
        = st.eyeYaw + (iS.yaw - st.lastSensorYaw) - st.gamepadRotate.x * dt ∧
    (onIdle P dt iS tssS st).lastSensorYaw = iS.yaw ∧
    (onIdle P dt iS tssS st).sensorConnected = true ∧
    (onIdle P dt iS tssS st).tssStreaming = false ∧
    (onIdle P dt iS tssS st).gamepadRotate = st.gamepadRotate := by
  unfold onIdle
  rw [sensorStep_internal_only P iS tssS st hsc hts]
  refine ⟨?_, ?_, ?_, ?_, ?_⟩ <;>
    simp [moveStep_eyeYaw, moveStep_lastSensorYaw, moveStep_sensorConnected,
      moveStep_tssStreaming, moveStep_gamepadRotate, gamepadRotStep_eyeYaw,
      gamepadRotStep_lastSensorYaw, gamepadRotStep_sensorConnected,
      gamepadRotStep_tssStreaming, gamepadRotStep_gamepadRotate, hsc, hts]

/-- C3: with the internal tracker attached and zero gamepad rotation, processing
the tracked-yaw readings `y0, y1, y2` over three frames starting from
`LastSensorYaw = y0` advances `EyeYaw` by exactly `y2 - y0`, whatever the
intermediate reading `y1` (a tare that forces `y1 = 0` does not reset the
accumulated yaw), whatever the pitch/roll readings and frame times. -/
theorem yaw_integrator_delta (P : MathFns) (st : AppState)
    (y0 y1 y2 p0 r0 p1 r1 p2 r2 dt0 dt1 dt2 : ℚ) :
    (onIdle P dt2 ⟨y2, p2, r2⟩ none
      (onIdle P dt1 ⟨y1, p1, r1⟩ none
        (onIdle P dt0 ⟨y0, p0, r0⟩ none
          { st with
            sensorConnected := true
            tssStreaming := false
            lastSensorYaw := y0
            gamepadRotate := ⟨0, 0, 0⟩ }))).eyeYaw
      = st.eyeYaw + (y2 - y0) := by
  obtain ⟨hy0, hl0, hs0, ht0, hg0⟩ := onIdle_internal_fields P dt0 ⟨y0, p0, r0⟩ none
    { st with
      sensorConnected := true
      tssStreaming := false
      lastSensorYaw := y0
      gamepadRotate := ⟨0, 0, 0⟩ } rfl rfl
  obtain ⟨hy1, hl1, hs1, ht1, hg1⟩ := onIdle_internal_fields P dt1 ⟨y1, p1, r1⟩ none _ hs0 ht0
  obtain ⟨hy2, hl2, hs2, ht2, hg2⟩ := onIdle_internal_fields P dt2 ⟨y2, p2, r2⟩ none _ hs1 ht1
  rw [hy2, hl1, hy1, hl0, hy0, hg1, hg0]
  simp
  ring

/-- C4: when both the internal sensor-fusion provider and the external tracker
are connected and the external tracker reports a quaternion, the frame's sensor
section produces exactly the state it would produce with the internal provider
disconnected (up to the connection flag itself): pitch and roll are the
decomposition of the external quaternion, and the yaw delta applied is the
external tracker's yaw minus the stored `LastSensorYaw` — the internal reading
contributes nothing. -/
theorem external_tracker_precedence (P : MathFns) (iS : Euler) (q : Quat) (st : AppState) :
    sensorStep P iS (some q) { st with sensorConnected := true, tssStreaming := true }
      = { sensorStep P iS (some q) { st with sensorConnected := false, tssStreaming := true }
          with sensorConnected := true } ∧
    (sensorStep P iS (some q) { st with sensorConnected := true, tssStreaming := true }).eyePitch
      = (decompose P.asinF P.atan2F q).pitch ∧
    (sensorStep P iS (some q) { st with sensorConnected := true, tssStreaming := true }).eyeRoll
      = (decompose P.asinF P.atan2F q).roll ∧
    (sensorStep P iS (some q) { st with sensorConnected := true, tssStreaming := true }).eyeYaw
      = st.eyeYaw + ((decompose P.asinF P.atan2F q).yaw - st.lastSensorYaw) := by
  unfold sensorStep
  simp [AppState.mk.injEq]
  ring

/-- C7: if the streaming tracker fails to deliver a sample this frame
(`tss_getLatestStreamData` returns an error), `OnIdle` decomposes the unchanged
`tss_packet` buffer again, so whenever the current pitch/roll/`LastSensorYaw`
came from that buffer the sensor section leaves the whole state unchanged, and
the frame still runs the remaining pipeline stages (gamepad rotation and motion
integration) on the retained pose — no frame is skipped. -/
theorem tracker_error_retains_pose (P : MathFns) (dt : ℚ) (iS : Euler) (st : AppState)
    (hts : st.tssStreaming = true)
    (hp : st.eyePitch = (decompose P.asinF P.atan2F st.tssPacket).pitch)
    (hr : st.eyeRoll = (decompose P.asinF P.atan2F st.tssPacket).roll)
    (hy : st.lastSensorYaw = (decompose P.asinF P.atan2F st.tssPacket).yaw) :
    sensorStep P iS none st = st ∧
    onIdle P dt iS none st = moveStep P.sqrtF P.cosF P.sinF dt (gamepadRotStep dt st) := by
  have hmain : sensorStep P iS none st = st := by
    obtain ⟨pos, yaw, pitch, roll, last, pkt, sc, ts, mf, mb, ml, mr, gm, gr, sh, cd⟩ := st
    simp only at hts hp hr hy
    subst hts
    unfold sensorStep
    cases sc
    · simp only [Bool.false_eq_true, if_false, if_true, Option.getD_none]
      rw [AppState.mk.injEq]
      refine ⟨rfl, ?_, hp.symm, hr.symm, hy.symm, rfl, rfl, rfl, rfl, rfl, rfl, rfl, rfl, rfl,
        rfl, rfl⟩
      rw [hy]
      ring
    · simp only [if_true, Option.getD_none]
      rw [AppState.mk.injEq]
      refine ⟨rfl, ?_, hp.symm, hr.symm, hy.symm, rfl, rfl, rfl, rfl, rfl, rfl, rfl, rfl, rfl,
        rfl, rfl⟩
      rw [hy]
      ring
  exact ⟨hmain, by rw [onIdle, hmain]⟩

/-- Witness for C7: the zero packet with the all-zero math library decomposes to
zero pitch/roll/yaw, matching a freshly constructed streaming-only state; the
error frame then leaves that state untouched. -/
theorem tracker_error_retains_pose_witness :
    sensorStep trivFns euler0 none (initState false true) = initState false true :=
  (tracker_error_retains_pose trivFns 1 euler0 (initState false true)
    rfl (by norm_num [initState, trivFns, decompose, zeroFun, zeroFun2])
    (by norm_num [initState, trivFns, decompose, zeroFun, zeroFun2])
    (by norm_num [initState, trivFns, decompose, zeroFun, zeroFun2])).1

/-- Counterexample to C5: at pitch 90 degrees (`cos = 0`, `sin = 1`, a valid
rotation since the squares sum to 1) and zero yaw and roll, the head-model
output is 0.06 lower than the pivot: the code subtracts only the constant
offset 0.15, not the rotated offset's vertical component 0.09. -/
theorem head_model_pitch_changes_height :
    ((1 : ℚ) * 1 + 0 * 0 = 1 ∧ (0 : ℚ) * 0 + 1 * 1 = 1) ∧
    (shiftedEyePos (K := ℚ) ⟨0, 8 / 5, -5⟩ 1 0 0 1 1 0).y ≠ 8 / 5 := by
  refine ⟨⟨by norm_num, by norm_num⟩, ?_⟩
  norm_num [shiftedEyePos, rollPitchYawV, rotYv, rotXv, rotZv, vadd,
    eyeCenterInHeadFrame, headBaseToEyeHeight, headBaseToEyeProtrusion]

/-- C5 amended: the head model re-levels only the constant vertical offset, so
the vertical component of the shifted eye is
`pos.y + (0.15 cos(pitch) cos(roll) + 0.09 sin(pitch)) - 0.15`; it equals the
pivot height for every yaw exactly when pitch and roll are zero, but nonzero
pitch or roll does raise or lower the eye relative to the pivot. -/
theorem head_model_level_yaw_only (pos : V3 ℚ) (cy sy cx sx cz sz : ℚ) :
    (shiftedEyePos pos cy sy 1 0 1 0).y = pos.y ∧
    (shiftedEyePos pos cy sy cx sx cz sz).y
      = pos.y + (headBaseToEyeHeight * cx * cz + headBaseToEyeProtrusion * sx)
        - headBaseToEyeHeight := by
  constructor <;>
    · simp only [shiftedEyePos, rollPitchYawV, rotYv, rotXv, rotZv, vadd,
        eyeCenterInHeadFrame, headBaseToEyeHeight, headBaseToEyeProtrusion]
      ring

/-- Counterexample to C6: with the external tracker streaming but no internal
sensor attached, a pure vertical mouse motion does change the camera pitch in
`OnMouseMove` — the handler checks only `pSensor`, not `tss_isStreaming`. -/
theorem mouse_pitch_not_ignored_external :
    (initState false true).tssStreaming = true ∧
    (onMouseMove 0 360 (initState false true)).eyePitch ≠ (initState false true).eyePitch := by
  refine ⟨rfl, ?_⟩
  norm_num [initState, onMouseMove, clampPitch, sensitivity, maxPitch]

/-- C6 amended: the mouse handler leaves pitch unchanged whenever the internal
sensor-fusion provider is attached (the only flag it checks); when the external
tracker is streaming, whatever pitch the mouse wrote is discarded on the next
frame, because the tracker branch overwrites pitch wholesale with the
decomposition of the sampled quaternion, independent of the current pitch. -/
theorem mouse_pitch_discarded (dx dy : ℤ) (st : AppState) (P : MathFns) (iS : Euler) (q : Quat) :
    (st.sensorConnected = true → (onMouseMove dx dy st).eyePitch = st.eyePitch) ∧
    (st.tssStreaming = true →
      (sensorStep P iS (some q) st).eyePitch = (decompose P.asinF P.atan2F q).pitch) := by
  constructor
  · intro h
    unfold onMouseMove
    dsimp only
    simp [h]
  · intro h
    unfold sensorStep
    dsimp only
    split <;> simp [h]

/-- Witness for the amended C6: with the internal sensor attached the handler
keeps pitch; with the external tracker streaming the sensor section's pitch is
the decomposition of the sampled quaternion. -/
theorem mouse_pitch_discarded_witness :
    (onMouseMove 3 7 (initState true false)).eyePitch = (initState true false).eyePitch ∧
    (sensorStep trivFns euler0 (some ⟨0, 1, 0, 1⟩) (initState false true)).eyePitch
      = (decompose trivFns.asinF trivFns.atan2F ⟨0, 1, 0, 1⟩).pitch :=
  ⟨(mouse_pitch_discarded 3 7 (initState true false) trivFns euler0 ⟨0, 1, 0, 1⟩).1 rfl,
   (mouse_pitch_discarded 3 7 (initState false true) trivFns euler0 ⟨0, 1, 0, 1⟩).2 rfl⟩

theorem clampPitch_bounds (p : ℚ) : -maxPitch ≤ clampPitch p ∧ clampPitch p ≤ maxPitch := by
  have hm : (0 : ℚ) ≤ maxPitch := by norm_num [maxPitch]
  unfold clampPitch
  by_cases h1 : p > maxPitch
  · have hnot : ¬ (maxPitch < -maxPitch) := by linarith
    simp only [h1, if_true, hnot, if_false]
    constructor <;> linarith
  · simp only [h1, if_false]
    by_cases h2 : p < -maxPitch
    · simp only [h2, if_true]
      constructor <;> linarith
    · simp only [h2, if_false]
      constructor <;> linarith [not_lt.mp h1, not_lt.mp h2]

theorem sensorStep_disconnected (P : MathFns) (iS : Euler) (tssS : Option Quat) (st : AppState)
    (hsc : st.sensorConnected = false) (hts : st.tssStreaming = false) :
    sensorStep P iS tssS st = st := by
  unfold sensorStep
  simp [hsc, hts]

/-- The inductive invariant for C8: no tracker is connected, pitch is inside the
clamp range, and roll is zero. -/
def noTrackerInv (st : AppState) : Prop :=
  st.sensorConnected = false ∧ st.tssStreaming = false ∧
  -maxPitch ≤ st.eyePitch ∧ st.eyePitch ≤ maxPitch ∧ st.eyeRoll = 0

theorem stepEv_noTracker (P : MathFns) (st : AppState) (e : Ev) (h : noTrackerInv st) :
    noTrackerInv (stepEv P st e) := by
  obtain ⟨hsc, hts, hlo, hhi, hroll⟩ := h
  cases e with
  | mouse dx dy =>
      unfold stepEv onMouseMove
      dsimp only
      simp only [hsc, Bool.not_false, if_true]
      exact ⟨rfl, hts, (clampPitch_bounds _).1, (clampPitch_bounds _).2, hroll⟩
  | pad lx ly rx ry =>
      exact ⟨hsc, hts, hlo, hhi, hroll⟩
  | key k down =>
      cases k <;> exact ⟨hsc, hts, hlo, hhi, hroll⟩
  | frame dt iS tssS =>
      simp only [stepEv, onIdle]
      rw [sensorStep_disconnected P iS tssS st hsc hts]
      refine ⟨?_, ?_, ?_, ?_, ?_⟩
      · rw [moveStep_sensorConnected, gamepadRotStep_sensorConnected]
        exact hsc
      · rw [moveStep_tssStreaming, gamepadRotStep_tssStreaming]
        exact hts
      · rw [moveStep_eyePitch, gamepadRotStep_eyePitch_manual dt st hsc hts]
        exact (clampPitch_bounds _).1
      · rw [moveStep_eyePitch, gamepadRotStep_eyePitch_manual dt st hsc hts]
        exact (clampPitch_bounds _).2
      · rw [moveStep_eyeRoll, gamepadRotStep_eyeRoll]
        exact hroll

theorem runEvents_noTracker (P : MathFns) (evs : List Ev) (st : AppState)
    (h : noTrackerInv st) : noTrackerInv (runEvents P st evs) := by
  induction evs generalizing st with
  | nil => exact h
  | cons e evs ih =>
      simp only [runEvents, List.foldl] at ih ⊢
      exact ih _ (stepEv_noTracker P st e h)

/-- C8: starting from the constructed state with no tracker connected, after any
sequence of mouse, gamepad, key and frame events, pitch stays within the
`maxPitch = (3.1415/2) * 0.98` clamp (both the mouse handler and the per-frame
gamepad-pitch integration clamp it) and roll stays 0. -/
theorem no_tracker_pitch_clamped (P : MathFns) (evs : List Ev) :
    -maxPitch ≤ (runEvents P (initState false false) evs).eyePitch ∧
    (runEvents P (initState false false) evs).eyePitch ≤ maxPitch ∧
    (runEvents P (initState false false) evs).eyeRoll = 0 := by
  have h0 : noTrackerInv (initState false false) := by
    refine ⟨rfl, rfl, ?_, ?_, rfl⟩ <;> norm_num [initState, maxPitch]
  obtain ⟨_, _, hlo, hhi, hroll⟩ := runEvents_noTracker P evs _ h0
  exact ⟨hlo, hhi, hroll⟩

theorem localMoveVector_y {K : Type} [Field K] (mf mb ml mr : ℕ) :
    (localMoveVector (K := K) mf mb ml mr).y = 0 := by
  by_cases hf : mf = 0 <;> by_cases hb : mb = 0 <;> by_cases hr : mr = 0 <;>
    by_cases hl : ml = 0 <;>
    simp [localMoveVector, vadd, vsub, vneg, forwardVector, rightVector, hf, hb, hr, hl]

theorem keyboardDisplacement_y {K : Type} [Field K] (sqrtF : K → K) (c s : K)
    (mf mb ml mr : ℕ) (dt : K) (shift : Bool) :
    (keyboardDisplacement sqrtF c s mf mb ml mr dt shift).y = 0 := by
  unfold keyboardDisplacement normalizeV rotYv smulV
  dsimp only
  rw [localMoveVector_y]
  simp

theorem moveStep_eyePos_y (f c s : ℚ → ℚ) (dt : ℚ) (st : AppState)
    (h : st.gamepadMove.y = 0) :
    (moveStep f c s dt st).eyePos.y = st.eyePos.y := by
  unfold moveStep
  dsimp only
  split
  · simp [vadd, keyboardDisplacement_y]
  · split
    · simp [vadd, smulV, rotYv, h]
    · rfl

theorem onIdle_gamepadMove (P : MathFns) (dt : ℚ) (iS : Euler) (tssS : Option Quat)
    (st : AppState) : (onIdle P dt iS tssS st).gamepadMove = st.gamepadMove := by
  unfold onIdle
  rw [moveStep_gamepadMove, gamepadRotStep_gamepadMove, sensorStep_gamepadMove]

/-- The inductive invariant for C10: the gamepad movement vector is level and
the eye height is the constructed 1.6. -/
def heightInv (st : AppState) : Prop :=
  st.gamepadMove.y = 0 ∧ st.eyePos.y = 8 / 5

theorem stepEv_height (P : MathFns) (st : AppState) (e : Ev) (h : heightInv st) :
    heightInv (stepEv P st e) := by
  obtain ⟨hgm, hy⟩ := h
  cases e with
  | mouse dx dy =>
      unfold stepEv onMouseMove
      dsimp only
      split <;> exact ⟨hgm, hy⟩
  | pad lx ly rx ry =>
      exact ⟨rfl, hy⟩
  | key k down =>
      cases k <;> exact ⟨hgm, hy⟩
  | frame dt iS tssS =>
      refine ⟨?_, ?_⟩
      · simp only [stepEv]
        rw [onIdle_gamepadMove]
        exact hgm
      · simp only [stepEv]
        rw [onIdle, moveStep_eyePos_y, gamepadRotStep_eyePos, sensorStep_eyePos]
        · exact hy
        · rw [gamepadRotStep_gamepadMove, sensorStep_gamepadMove]
          exact hgm

theorem runEvents_height (P : MathFns) (evs : List Ev) (st : AppState)
    (h : heightInv st) : heightInv (runEvents P st evs) := by
  induction evs generalizing st with
  | nil => exact h
  | cons e evs ih =>
      simp only [runEvents, List.foldl] at ih ⊢
      exact ih _ (stepEv_height P st e h)

/-- C10: the motion-integration step never changes the vertical component of the
eye position (the keyboard vector is level and normalization and yaw rotation
keep it level; the gamepad vector is level by construction in `OnGamepad`), so
from the constructed state — whatever the tracker flags — the camera height
stays at the initial 1.6 over every event sequence of the process. -/
theorem motion_keeps_height :
    (∀ (P : MathFns) (dt : ℚ) (iS : Euler) (tssS : Option Quat) (st : AppState),
      st.gamepadMove.y = 0 → (onIdle P dt iS tssS st).eyePos.y = st.eyePos.y) ∧
    (∀ (P : MathFns) (sc ts : Bool) (evs : List Ev),
      (runEvents P (initState sc ts) evs).eyePos.y = 8 / 5) := by
  constructor
  · intro P dt iS tssS st h
    rw [onIdle, moveStep_eyePos_y, gamepadRotStep_eyePos, sensorStep_eyePos]
    rw [gamepadRotStep_gamepadMove, sensorStep_gamepadMove]
    exact h
  · intro P sc ts evs
    exact (runEvents_height P evs _ ⟨rfl, rfl⟩).2

/-- Witness for C10: one frame from the constructed state (whose gamepad vector
is level) leaves the eye height unchanged. -/
theorem motion_keeps_height_witness :
    (onIdle trivFns 1 euler0 none (initState false false)).eyePos.y
      = (initState false false).eyePos.y :=
  motion_keeps_height.1 trivFns 1 euler0 none (initState false false) rfl

/-- C9: with the real square root, pressing forward and strafe-right together
yields a displacement of the same squared magnitude as forward alone — the
local vector is normalized before scaling — and that magnitude is exactly
`(MoveSpeed * dt * (shift ? 3 : 1))^2` for any yaw rotation with
`cos^2 + sin^2 = 1`; moreover forward wins over back and right wins over left
when opposing bits are both set. -/
theorem diagonal_speed_normalized (cy sy dt : ℝ) (shift : Bool)
    (h : cy * cy + sy * sy = 1) :
    dotV (keyboardDisplacement Real.sqrt cy sy 1 0 0 1 dt shift)
        (keyboardDisplacement Real.sqrt cy sy 1 0 0 1 dt shift)
      = dotV (keyboardDisplacement Real.sqrt cy sy 1 0 0 0 dt shift)
          (keyboardDisplacement Real.sqrt cy sy 1 0 0 0 dt shift) ∧
    dotV (keyboardDisplacement Real.sqrt cy sy 1 0 0 0 dt shift)
        (keyboardDisplacement Real.sqrt cy sy 1 0 0 0 dt shift)
      = (moveSpeed (K := ℝ) * dt * (if shift then 3 else 1)) ^ 2 ∧
    (∀ mf mb ml mr : ℕ, mf ≠ 0 →
      localMoveVector (K := ℝ) mf mb ml mr = localMoveVector mf 0 ml mr) ∧
    (∀ mf mb ml mr : ℕ, mr ≠ 0 →
      localMoveVector (K := ℝ) mf mb ml mr = localMoveVector mf mb 0 mr) := by
  have hs2 : Real.sqrt 2 * Real.sqrt 2 = 2 := Real.mul_self_sqrt (by norm_num)
  have hs2ne : Real.sqrt 2 ≠ 0 := by
    intro h0
    rw [h0, mul_zero] at hs2
    norm_num at hs2
  have hs2p : Real.sqrt 2 ^ 2 = 2 := by
    rw [sq]
    exact hs2
  have hfwd : dotV (keyboardDisplacement Real.sqrt cy sy 1 0 0 0 dt shift)
      (keyboardDisplacement Real.sqrt cy sy 1 0 0 0 dt shift)
      = (moveSpeed (K := ℝ) * dt * (if shift then 3 else 1)) ^ 2 := by
    cases shift with
    | false =>
        simp only [keyboardDisplacement, localMoveVector, normalizeV, rotYv, smulV, dotV,
          forwardVector, rightVector, vadd, vneg, vsub, if_false, Bool.false_eq_true]
        norm_num [Real.sqrt_one]
        linear_combination (moveSpeed (K := ℝ) * dt) ^ 2 * h
    | true =>
        simp only [keyboardDisplacement, localMoveVector, normalizeV, rotYv, smulV, dotV,
          forwardVector, rightVector, vadd, vneg, vsub, if_true]
        norm_num [Real.sqrt_one]
        linear_combination (moveSpeed (K := ℝ) * dt * 3) ^ 2 * h
  have hdiag : dotV (keyboardDisplacement Real.sqrt cy sy 1 0 0 1 dt shift)
      (keyboardDisplacement Real.sqrt cy sy 1 0 0 1 dt shift)
      = (moveSpeed (K := ℝ) * dt * (if shift then 3 else 1)) ^ 2 := by
    cases shift with
    | false =>
        simp only [keyboardDisplacement, localMoveVector, normalizeV, rotYv, smulV, dotV,
          forwardVector, rightVector, vadd, vneg, vsub, if_false, Bool.false_eq_true]
        norm_num
        field_simp
        linear_combination (8 * moveSpeed (K := ℝ) ^ 2 * dt ^ 2) * h +
          (4 * moveSpeed (K := ℝ) ^ 2 * dt ^ 2 * cy * sy +
            2 * moveSpeed (K := ℝ) ^ 2 * dt ^ 2 * cy ^ 2 +
            2 * moveSpeed (K := ℝ) ^ 2 * dt ^ 2 * sy ^ 2) * hs2p
    | true =>
        simp only [keyboardDisplacement, localMoveVector, normalizeV, rotYv, smulV, dotV,
          forwardVector, rightVector, vadd, vneg, vsub, if_true]
        norm_num
        field_simp
        linear_combination (72 * moveSpeed (K := ℝ) ^ 2 * dt ^ 2) * h +
          (36 * moveSpeed (K := ℝ) ^ 2 * dt ^ 2 * cy * sy +
            18 * moveSpeed (K := ℝ) ^ 2 * dt ^ 2 * cy ^ 2 +
            18 * moveSpeed (K := ℝ) ^ 2 * dt ^ 2 * sy ^ 2) * hs2p
  refine ⟨hdiag.trans hfwd.symm, hfwd, ?_, ?_⟩
  · intro mf mb ml mr hmf
    unfold localMoveVector
    simp [hmf]
  · intro mf mb ml mr hmr
    unfold localMoveVector
    simp [hmr]

/-- Witness for C9: a concrete yaw rotation (`cos = 1`, `sin = 0`), `dt = 1`, no
shift: the diagonal and the forward-only squared magnitudes agree and equal the
squared speed scale. -/
theorem diagonal_speed_normalized_witness :
    dotV (keyboardDisplacement Real.sqrt 1 0 1 0 0 1 1 false)
        (keyboardDisplacement Real.sqrt 1 0 1 0 0 1 1 false)
      = dotV (keyboardDisplacement Real.sqrt 1 0 1 0 0 0 1 false)
          (keyboardDisplacement Real.sqrt 1 0 1 0 0 0 1 false) ∧
    dotV (keyboardDisplacement Real.sqrt 1 0 1 0 0 0 1 false)
        (keyboardDisplacement Real.sqrt 1 0 1 0 0 0 1 false)
      = (moveSpeed (K := ℝ) * 1 * (if false then 3 else 1)) ^ 2 :=
  ⟨(diagonal_speed_normalized 1 0 1 false (by norm_num)).1,
   (diagonal_speed_normalized 1 0 1 false (by norm_num)).2.1⟩

end RoomTiny
